import Mathlib

/-!
Verification of the risk-classification core of the patient health
monitoring dashboard (`src/main.py`).

The embedding models:
* the per-vital risk labels and aggregate health statuses (Python strings)
  as inductive enumerations;
* a pandas cell value as `Value`: null (`None`/`NaN`), a numeric value,
  or a malformed non-numeric value (e.g. a string where a number was
  expected);
* Python comparisons on cell values: a comparison against `NaN` yields
  `False`, a comparison of a non-numeric string against a number raises
  `TypeError` — modelled with `Except Unit`, where `.error ()` is an
  uncaught Python exception;
* the four per-vital classifiers `assess_bp_risk`, `assess_hr_risk`,
  `assess_o2_risk`, `assess_diabetes_risk` and the aggregator
  `determine_overall_status` from `assess_health_risks`;
* the overview-metric percentage expressions of `main` (division by the
  row count of the filtered frame);
* the temporal-join query of `fetch_patient_data_by_date` (LEFT JOINs
  filtered to the selected date, `ROW_NUMBER` partitioned by patient and
  ordered by the four date/timestamp keys descending, `rn = 1`).
-/

/-- Decidable equality for `Except`, used to evaluate classifier results
on concrete inputs. -/
instance instDecEqExcept {ε α : Type} [DecidableEq ε] [DecidableEq α] :
    DecidableEq (Except ε α) := fun a b =>
  match a, b with
  | .ok x, .ok y =>
    if h : x = y then .isTrue (by rw [h]) else .isFalse (by simp [h])
  | .error x, .error y =>
    if h : x = y then .isTrue (by rw [h]) else .isFalse (by simp [h])
  | .ok _, .error _ => .isFalse (by simp)
  | .error _, .ok _ => .isFalse (by simp)

/-- Per-vital risk label, one constructor per string the classifiers in
`assess_health_risks` can produce. -/
inductive Risk where
  | normal
  | elevated
  | highRisk
  | lowRisk
  | atRisk
  | critical
  | crisis
  | noData
  | error
deriving DecidableEq, Repr, Fintype

/-- Aggregate health status, one constructor per string
`determine_overall_status` can return. -/
inductive Status where
  | critical
  | highRisk
  | atRisk
  | normal
  | incompleteData
  | unknown
deriving DecidableEq, Repr, Fintype

/-- A pandas cell: null (`None`/`NaN`), a numeric value, or a malformed
non-numeric value such as a string. -/
inductive Value where
  | null
  | num (q : ℚ)
  | text (s : String)
deriving DecidableEq, Repr

namespace Value

/-- `pd.isna`: true on null/NaN, false on numbers and on strings. -/
def isna : Value → Bool
  | .null => true
  | _ => false

/-- Python `v >= c` for a cell against a numeric constant: `NaN >= c` is
`False`, a string comparison raises `TypeError`. -/
def ge (v : Value) (c : ℚ) : Except Unit Bool :=
  match v with
  | .null => .ok false
  | .num q => .ok (decide (c ≤ q))
  | .text _ => .error ()

/-- Python `v > c`: `NaN > c` is `False`, a string comparison raises. -/
def gt (v : Value) (c : ℚ) : Except Unit Bool :=
  match v with
  | .null => .ok false
  | .num q => .ok (decide (c < q))
  | .text _ => .error ()

/-- Python `v < c`: `NaN < c` is `False`, a string comparison raises. -/
def lt (v : Value) (c : ℚ) : Except Unit Bool :=
  match v with
  | .null => .ok false
  | .num q => .ok (decide (q < c))
  | .text _ => .error ()

end Value

/-- Python short-circuit `or` over possibly-raising boolean expressions:
the right operand is only evaluated when the left is `False`. -/
def orE (a b : Except Unit Bool) : Except Unit Bool :=
  match a with
  | .ok true => .ok true
  | .ok false => b
  | .error e => .error e

/-- Body of `assess_bp_risk` before its `try/except`: null check first,
then the three threshold tests, each an `or` of two comparisons. -/
def assess_bp_riskE (systolic diastolic : Value) : Except Unit Risk :=
  if systolic.isna || diastolic.isna then .ok .noData
  else do
    if ← orE (systolic.ge 180) (diastolic.ge 120) then pure .crisis
    else if ← orE (systolic.ge 140) (diastolic.ge 90) then pure .highRisk
    else if ← orE (systolic.ge 120) (diastolic.ge 80) then pure .elevated
    else pure .normal

/-- `assess_bp_risk` from `src/main.py`: the whole body is wrapped in
`try/except`, so any raised exception becomes the label `'Error'`. -/
def assess_bp_risk (systolic diastolic : Value) : Risk :=
  match assess_bp_riskE systolic diastolic with
  | .ok r => r
  | .error _ => .error

/-- `assess_hr_risk` from `src/main.py`. No `try/except`: a malformed
heart-rate value propagates a `TypeError`. -/
def assess_hr_risk (heart_rate : Value) : Except Unit Risk :=
  if heart_rate.isna then .ok .noData
  else do
    if ← heart_rate.gt 120 then pure .highRisk
    else if ← heart_rate.lt 60 then pure .lowRisk
    else pure .normal

/-- `assess_o2_risk` from `src/main.py`. No `try/except`. -/
def assess_o2_risk (oxygen_level : Value) : Except Unit Risk :=
  if oxygen_level.isna then .ok .noData
  else do
    if ← oxygen_level.lt 90 then pure .critical
    else if ← oxygen_level.lt 95 then pure .atRisk
    else pure .normal

/-- `assess_diabetes_risk` from `src/main.py`. The `a1c_level` argument
is `none` when the `a1c_level` column is absent from the data frame
(`has_a1c = False`; the fetch query selects no such column) and
`some v` when the column is present with cell `v`. No `try/except`. -/
def assess_diabetes_risk (glucose_level : Value) (a1c_level : Option Value) :
    Except Unit Risk :=
  let has_a1c := a1c_level.isSome
  if glucose_level.isna && (has_a1c && ((a1c_level.getD .null).isna)) then
    .ok .noData
  else do
    let a1c_risk ←
      match a1c_level with
      | some v =>
        if !v.isna then do
          if ← v.gt 8 then pure Risk.highRisk
          else if ← v.gt 7 then pure Risk.atRisk
          else pure Risk.normal
        else pure Risk.normal
      | none => pure Risk.normal
    let glucose_risk ←
      if !glucose_level.isna then do
        if ← glucose_level.gt 200 then pure Risk.highRisk
        else if ← glucose_level.gt 140 then pure Risk.atRisk
        else pure Risk.normal
      else pure Risk.normal
    if a1c_risk = Risk.highRisk ∨ glucose_risk = Risk.highRisk then
      pure Risk.highRisk
    else if a1c_risk = Risk.atRisk ∨ glucose_risk = Risk.atRisk then
      pure Risk.atRisk
    else pure Risk.normal

/-- `determine_overall_status` on the list `risks`, mirroring the Python
membership tests and the `all(...)` generator. -/
def determine_overall_statusL (risks : List Risk) : Status :=
  if Risk.critical ∈ risks then .critical
  else if Risk.highRisk ∈ risks then .highRisk
  else if Risk.atRisk ∈ risks ∨ Risk.elevated ∈ risks then .atRisk
  else if ∀ r ∈ risks, r = Risk.normal then .normal
  else if Risk.noData ∈ risks then .incompleteData
  else .unknown

/-- `determine_overall_status` from `src/main.py`:
`risks = [BP_Risk, HR_Risk, O2_Risk, Diabetes_Risk]`. -/
def determine_overall_status (bp hr o2 dia : Risk) : Status :=
  determine_overall_statusL [bp, hr, o2, dia]

/-- One row of the data frame handed to `assess_health_risks`: the vital
cells of a patient reading. `a1c_level = none` means the column itself is
absent (as with the frame produced by `fetch_patient_data_by_date`, whose
query selects no `a1c_level`). Identity and demographic columns are
omitted: the classifiers never read them. -/
structure PatientReading where
  systolic : Value
  diastolic : Value
  heart_rate : Value
  oxygen_level : Value
  glucose_level : Value
  a1c_level : Option Value
deriving DecidableEq, Repr

/-- A row after `assess_health_risks`: the four per-vital labels and the
aggregate status columns. -/
structure ClassifiedReading where
  bp_risk : Risk
  hr_risk : Risk
  o2_risk : Risk
  diabetes_risk : Risk
  health_status : Status
deriving DecidableEq, Repr

/-- Classification of a single row, in the column order of
`assess_health_risks` (BP, then HR, then O2, then diabetes, then the
overall status); the first uncaught exception aborts. -/
def classifyReading (r : PatientReading) : Except Unit ClassifiedReading := do
  let bp := assess_bp_risk r.systolic r.diastolic
  let hr ← assess_hr_risk r.heart_rate
  let o2 ← assess_o2_risk r.oxygen_level
  let dia ← assess_diabetes_risk r.glucose_level r.a1c_level
  pure ⟨bp, hr, o2, dia, determine_overall_status bp hr o2 dia⟩

/-- `assess_health_risks` over the whole frame, column-wise as in the
source: the BP column never raises (its classifier catches), while a
raise in the HR, O2 or diabetes column aborts the whole batch. -/
def assess_health_risks (rows : List PatientReading) :
    Except Unit (List ClassifiedReading) := do
  let bp := rows.map (fun r => assess_bp_risk r.systolic r.diastolic)
  let hr ← rows.mapM (fun r => assess_hr_risk r.heart_rate)
  let o2 ← rows.mapM (fun r => assess_o2_risk r.oxygen_level)
  let dia ← rows.mapM (fun r => assess_diabetes_risk r.glucose_level r.a1c_level)
  pure ((((bp.zip hr).zip o2).zip dia).map
    (fun x =>
      ⟨x.1.1.1, x.1.1.2, x.1.2, x.2,
        determine_overall_status x.1.1.1 x.1.1.2 x.1.2 x.2⟩))

/-- Numeric-or-absent reading, the shape of rows coming from the store
(each vital nullable, never a malformed string): `toValue none` is a SQL
NULL / pandas `NaN`. -/
def toValue : Option ℚ → Value
  | none => .null
  | some q => .num q

/-- Build a reading from optional numeric vitals; the last argument is
`none` when the `a1c_level` column is absent, `some a` when present with
the optional numeric value `a`. -/
def ofNums (sys dia hr o2 glu : Option ℚ) (a1c : Option (Option ℚ)) :
    PatientReading :=
  ⟨toValue sys, toValue dia, toValue hr, toValue o2, toValue glu,
    a1c.map toValue⟩

/-- Modelled from the spec's words, for the refinement claim about the
diabetes rule: the A1C sub-risk (`>8 → High Risk; >7 → At Risk; else
Normal`). -/
def spec_a1c_sub (a : ℚ) : Risk :=
  if 8 < a then .highRisk else if 7 < a then .atRisk else .normal

/-- Modelled from the spec's words: the glucose sub-risk
(`>200 → High Risk; >140 → At Risk; else Normal`). -/
def spec_glucose_sub (g : ℚ) : Risk :=
  if 200 < g then .highRisk else if 140 < g then .atRisk else .normal

/-- Modelled from the spec's words: worst of two sub-risks under
High Risk > At Risk > Normal. -/
def spec_worst (r₁ r₂ : Risk) : Risk :=
  if r₁ = .highRisk ∨ r₂ = .highRisk then .highRisk
  else if r₁ = .atRisk ∨ r₂ = .atRisk then .atRisk
  else .normal

/-- Modelled from the spec's words: combined diabetes label = worst of
the sub-risks of the present signals; an absent signal contributes the
neutral `Normal` and so never downgrades the other. -/
def spec_diabetes_label (g a : Option ℚ) : Risk :=
  spec_worst (a.elim .normal spec_a1c_sub) (g.elim .normal spec_glucose_sub)

/-- Python `count / len(filtered_data) * 100`: raises `ZeroDivisionError`
when the frame is empty, otherwise a true-division percentage. -/
def pctE (count total : ℕ) : Except Unit ℚ :=
  if total = 0 then .error () else .ok ((count : ℚ) / (total : ℚ) * 100)

/-- Overview metric `bp_risk_count/len(filtered_data)*100`
(`src/main.py` line 396). -/
def bp_high_risk_pct (rows : List ClassifiedReading) : Except Unit ℚ :=
  pctE (rows.filter (fun c => c.bp_risk = Risk.highRisk)).length rows.length

/-- Overview metric `hr_risk_count/len(filtered_data)*100` (line 411). -/
def hr_high_risk_pct (rows : List ClassifiedReading) : Except Unit ℚ :=
  pctE (rows.filter (fun c => c.hr_risk = Risk.highRisk)).length rows.length

/-- Overview metric `o2_risk_count/len(filtered_data)*100` (line 426,
counting rows whose O2 label differs from `'Normal'`). -/
def o2_abnormal_pct (rows : List ClassifiedReading) : Except Unit ℚ :=
  pctE (rows.filter (fun c => ¬c.o2_risk = Risk.normal)).length rows.length

/-- Overview metric `diabetes_risk_count/len(filtered_data)*100`
(line 441). -/
def diabetes_high_risk_pct (rows : List ClassifiedReading) : Except Unit ℚ :=
  pctE (rows.filter (fun c => c.diabetes_risk = Risk.highRisk)).length
    rows.length

/-- Follow-up metric `incomplete_count/len(filtered_data)*100`
(line 520), unguarded like the four above. -/
def incomplete_data_pct (rows : List ClassifiedReading) : Except Unit ℚ :=
  pctE (rows.filter (fun c => c.health_status = Status.incompleteData)).length
    rows.length

/-- The one guarded percentage (lines 493-494): `critical_count /
total_patients * 100 if total_patients > 0 else 0`. -/
def critical_percentage (rows : List ClassifiedReading) : ℚ :=
  if 0 < rows.length then
    ((rows.filter (fun c => c.health_status = Status.critical)).length : ℚ) /
      (rows.length : ℚ) * 100
  else 0

/-- The fetch-then-classify prefix of `main` (lines 347-352): an empty
fetch result hits `st.stop()` (modelled as `none`) before any
classification or metric runs. -/
def mainPipeline (fetched : List PatientReading) :
    Option (Except Unit (List ClassifiedReading)) :=
  if fetched.isEmpty then none else some (assess_health_risks fetched)

/-- A `BloodPressure` row as selected by the fetch query. -/
structure BPRec where
  patient_id : ℕ
  record_date : ℤ
  systolic : Value
  diastolic : Value
deriving DecidableEq, Repr

/-- A `HeartRate` row. -/
structure HRRec where
  patient_id : ℕ
  record_timestamp : ℤ
  heart_rate : Value
deriving DecidableEq, Repr

/-- An `Oxygen` row. -/
structure O2Rec where
  patient_id : ℕ
  record_timestamp : ℤ
  oxygen_level : Value
deriving DecidableEq, Repr

/-- A `Diabetes` row. -/
structure DRec where
  patient_id : ℕ
  record_date : ℤ
  glucose_level : Value
deriving DecidableEq, Repr

/-- The backing store: the `Patients` table (keyed rows projected to the
patient id; the demographic columns do not affect row selection) and the
four vital tables. -/
structure Database where
  patients : List ℕ
  bloodPressure : List BPRec
  heartRate : List HRRec
  oxygen : List O2Rec
  diabetes : List DRec

/-- SQL `DATE(ts)` for an integer timestamp measured in seconds: the day
number containing it. -/
def dateOf (ts : ℤ) : ℤ := ts / 86400

/-- One `LEFT JOIN` step: no matching right-hand row yields the single
all-NULL extension, otherwise one extension per matching row. -/
def leftJoinRows {α : Type} (xs : List α) : List (Option α) :=
  if xs.isEmpty then [none] else xs.map some

/-- One candidate row of the `LatestReadings` CTE for a fixed patient:
the patient's columns extended with optional rows of the four joined
tables. -/
structure CandRow where
  bp : Option BPRec
  hr : Option HRRec
  o2 : Option O2Rec
  dia : Option DRec
deriving DecidableEq, Repr

/-- All candidate rows of the CTE for patient `pid` and the selected
date: the four date-filtered `LEFT JOIN`s in query order. -/
def candidates (db : Database) (pid : ℕ) (d : ℤ) : List CandRow :=
  (leftJoinRows (db.bloodPressure.filter
      (fun r => r.patient_id = pid ∧ r.record_date = d))).flatMap fun b =>
    (leftJoinRows (db.heartRate.filter
        (fun r => r.patient_id = pid ∧ dateOf r.record_timestamp = d))).flatMap fun h =>
      (leftJoinRows (db.oxygen.filter
          (fun r => r.patient_id = pid ∧ dateOf r.record_timestamp = d))).flatMap fun o =>
        (leftJoinRows (db.diabetes.filter
            (fun r => r.patient_id = pid ∧ r.record_date = d))).map fun g =>
          ⟨b, h, o, g⟩

/-- Rank of one `ORDER BY ... DESC` key: Postgres sorts NULLs first
under `DESC`, so NULL ranks above every value, and otherwise larger
values rank higher. -/
def rank1 (x : Option ℤ) : Bool ×ₗ ℤ :=
  toLex (match x with
    | none => (true, 0)
    | some v => (false, v))

/-- Rank of a candidate row under the query's `ORDER BY bp.record_date
DESC, hr.record_timestamp DESC, o2.record_timestamp DESC, d.record_date
DESC`: lexicographic, higher rank = earlier in the sorted partition. -/
def sortRank (c : CandRow) :
    (Bool ×ₗ ℤ) ×ₗ ((Bool ×ₗ ℤ) ×ₗ ((Bool ×ₗ ℤ) ×ₗ (Bool ×ₗ ℤ))) :=
  toLex (rank1 (c.bp.map BPRec.record_date),
    toLex (rank1 (c.hr.map HRRec.record_timestamp),
      toLex (rank1 (c.o2.map O2Rec.record_timestamp),
        rank1 (c.dia.map DRec.record_date))))

/-- First row of a partition under the `ORDER BY`: the first occurrence
of the rank-maximal candidate (a stable sort's head, i.e. the row with
`ROW_NUMBER() = 1`). -/
def pickFirstMax (x : CandRow) (xs : List CandRow) : CandRow :=
  xs.foldl (fun acc r => if sortRank r ≤ sortRank acc then acc else r) x

/-- `WHERE rn = 1` applied to one partition. The `[]` case cannot occur:
a `LEFT JOIN` chain from `Patients` yields at least one candidate per
patient (see `candidates_ne_nil`). -/
def rowNumberOne (l : List CandRow) : CandRow :=
  match l with
  | [] => ⟨none, none, none, none⟩
  | x :: xs => pickFirstMax x xs

/-- `fetch_patient_data_by_date` from `src/main.py`: for each patient,
the `rn = 1` row of that patient's partition of the CTE. -/
def fetch_patient_data_by_date (db : Database) (selected_date : ℤ) :
    List (ℕ × CandRow) :=
  db.patients.map fun pid =>
    (pid, rowNumberOne (candidates db pid selected_date))

example : assess_bp_risk (.num 190) (.num 80) = .crisis := by decide
example : assess_hr_risk (.num 60) = .ok .normal := by decide
example : assess_o2_risk (.num 90) = .ok .atRisk := by decide
example : assess_diabetes_risk .null none = .ok .normal := by decide
example : assess_diabetes_risk .null (some .null) = .ok .noData := by decide
example :
    classifyReading (ofNums (some 190) (some 80) (some 80) (some 98)
      (some 100) none) =
    .ok ⟨.crisis, .normal, .normal, .normal, .unknown⟩ := by decide

lemma orE_ok (x y : Bool) : orE (.ok x) (.ok y) = .ok (x || y) := by
  cases x <;> rfl

lemma assess_bp_riskE_num_num (a b : ℚ) :
    assess_bp_riskE (.num a) (.num b) =
      .ok (if 180 ≤ a ∨ 120 ≤ b then .crisis
        else if 140 ≤ a ∨ 90 ≤ b then .highRisk
        else if 120 ≤ a ∨ 80 ≤ b then .elevated
        else .normal) := by
  unfold assess_bp_riskE
  simp only [Value.isna, Value.ge, orE_ok, Bool.or_eq_true, decide_eq_true_eq,
    Bool.false_or, Bool.or_false, ite_false, if_false]
  by_cases h1 : 180 ≤ a ∨ 120 ≤ b <;>
    by_cases h2 : 140 ≤ a ∨ 90 ≤ b <;>
      by_cases h3 : 120 ≤ a ∨ 80 ≤ b <;>
        simp [h1, h2, h3, Bind.bind, Except.bind, pure, Except.pure]

lemma assess_bp_risk_num_num (a b : ℚ) :
    assess_bp_risk (.num a) (.num b) =
      if 180 ≤ a ∨ 120 ≤ b then .crisis
      else if 140 ≤ a ∨ 90 ≤ b then .highRisk
      else if 120 ≤ a ∨ 80 ≤ b then .elevated
      else .normal := by
  unfold assess_bp_risk
  rw [assess_bp_riskE_num_num]

lemma assess_hr_risk_num (q : ℚ) :
    assess_hr_risk (.num q) =
      .ok (if 120 < q then .highRisk
        else if q < 60 then .lowRisk
        else .normal) := by
  unfold assess_hr_risk
  by_cases h1 : 120 < q <;> by_cases h2 : q < 60 <;>
    simp [Value.isna, Value.gt, Value.lt, h1, h2, Bind.bind, Except.bind,
      pure, Except.pure]

lemma assess_o2_risk_num (q : ℚ) :
    assess_o2_risk (.num q) =
      .ok (if q < 90 then .critical
        else if q < 95 then .atRisk
        else .normal) := by
  unfold assess_o2_risk
  by_cases h1 : q < 90 <;> by_cases h2 : q < 95 <;>
    simp [Value.isna, Value.lt, h1, h2, Bind.bind, Except.bind,
      pure, Except.pure]

/-- C5: with both values numeric, a systolic of at least 180 or a
diastolic of at least 120 — either alone suffices — yields the BP label
`Crisis`; with either value null (whatever the other cell holds), the BP
label is `No Data`. -/
theorem c5_bp_crisis_disjunction_and_null_no_data :
    ∀ (s d : ℚ) (v : Value),
      ((180 ≤ s ∨ 120 ≤ d) → assess_bp_risk (.num s) (.num d) = .crisis)
      ∧ assess_bp_risk .null v = .noData
      ∧ assess_bp_risk v .null = .noData := by
  intro s d v
  refine ⟨fun h => ?_, rfl, ?_⟩
  · rw [assess_bp_risk_num_num, if_pos h]
  · cases v <;> rfl

/-- Witness for C5 at concrete inputs: each side of the disjunction
alone produces `Crisis`, and a missing value produces `No Data`. -/
theorem c5_witness :
    assess_bp_risk (.num 185) (.num 70) = .crisis ∧
    assess_bp_risk (.num 100) (.num 125) = .crisis ∧
    assess_bp_risk (.num 100) .null = .noData := by
  refine ⟨?_, ?_, ?_⟩
  · exact (c5_bp_crisis_disjunction_and_null_no_data 185 70 .null).1
      (Or.inl (by norm_num))
  · exact (c5_bp_crisis_disjunction_and_null_no_data 100 125 .null).1
      (Or.inr (by norm_num))
  · exact (c5_bp_crisis_disjunction_and_null_no_data 0 0 (.num 100)).2.2

/-- C6: heart rates of exactly 60 and exactly 120 classify as `Normal`
(`High Risk` exactly for rates strictly above 120, `Low Risk` exactly
for rates strictly below 60), and oxygen saturation of exactly 90
classifies as `At Risk` — not `Critical` — while exactly 95 is
`Normal`. -/
theorem c6_hr_o2_boundary_values :
    assess_hr_risk (.num 60) = .ok .normal ∧
    assess_hr_risk (.num 120) = .ok .normal ∧
    assess_o2_risk (.num 90) = .ok .atRisk ∧
    assess_o2_risk (.num 95) = .ok .normal ∧
    (∀ q : ℚ, assess_hr_risk (.num q) = .ok .highRisk ↔ 120 < q) ∧
    (∀ q : ℚ, assess_hr_risk (.num q) = .ok .lowRisk ↔ q < 60) := by
  refine ⟨by decide, by decide, by decide, by decide, ?_, ?_⟩
  · intro q
    rw [assess_hr_risk_num]
    by_cases h1 : 120 < q <;> by_cases h2 : q < 60 <;> simp [h1, h2]
  · intro q
    rw [assess_hr_risk_num]
    by_cases h1 : 120 < q <;> by_cases h2 : q < 60 <;> simp [h1, h2]
    linarith

/-- C2: evaluation of the diabetes classifier at rows with no glucose
and no A1C. In the frame shape actually produced by the fetch query the
`a1c_level` column is absent (`has_a1c` is `False`), and the classifier
returns `Normal` for a row with no diabetes data at all — the `No Data`
branch fires only in the hypothetical shape where the column exists and
holds null. -/
theorem c2_both_absent_yields_normal_not_no_data :
    assess_diabetes_risk .null none = .ok .normal ∧
    assess_diabetes_risk .null (some .null) = .ok .noData := by
  decide

/-- Counterexample to C1: a reading with blood pressure in crisis
(systolic 190, diastolic 80) and every other vital normal flows through
the full classification and receives the aggregate status `Unknown` —
the five preceding branches do not cover the label `Crisis`. -/
theorem c1_counterexample :
    (classifyReading (ofNums (some 190) (some 80) (some 80) (some 98)
        (some 100) none)).map ClassifiedReading.health_status =
      .ok .unknown := by
  decide

/-- C1 amended: the aggregate `Unknown` is reachable. It occurs exactly
when none of the four labels is `Critical`, `High Risk`, `At Risk`,
`Elevated` or `No Data` and the labels are not all `Normal` — i.e. when
every non-`Normal` label is `Crisis`, `Low Risk` or `Error`, each of
which the five branches fail to cover; e.g. a low-risk heart rate with
all other vitals normal reaches `Unknown` through the full pipeline. -/
theorem c1_amended_unknown_reachable :
    (∀ bp hr o2 dia : Risk,
      determine_overall_status bp hr o2 dia = .unknown ↔
        (Risk.critical ∉ [bp, hr, o2, dia] ∧
         Risk.highRisk ∉ [bp, hr, o2, dia] ∧
         Risk.atRisk ∉ [bp, hr, o2, dia] ∧
         Risk.elevated ∉ [bp, hr, o2, dia] ∧
         Risk.noData ∉ [bp, hr, o2, dia] ∧
         ¬∀ r ∈ [bp, hr, o2, dia], r = Risk.normal)) ∧
    (classifyReading (ofNums (some 110) (some 70) (some 50) (some 98)
        (some 100) none)).map ClassifiedReading.health_status =
      .ok .unknown := by
  exact ⟨by decide, by decide⟩

/-- C8: the aggregate status is invariant under every permutation of the
risk-label list, follows the stated precedence (any `Critical` wins,
else any `High Risk`, else any `At Risk` or `Elevated`, else all
`Normal`, else any `No Data` gives `Incomplete Data`), and the multiset
\x7bNormal, Normal, No Data, Normal\x7d yields `Incomplete Data`, not
`Normal`. -/
theorem c8_overall_perm_invariant_and_precedence :
    (∀ (l₁ l₂ : List Risk), l₁.Perm l₂ →
      determine_overall_statusL l₁ = determine_overall_statusL l₂) ∧
    (∀ l : List Risk,
      (Risk.critical ∈ l → determine_overall_statusL l = .critical) ∧
      (Risk.critical ∉ l → Risk.highRisk ∈ l →
        determine_overall_statusL l = .highRisk) ∧
      (Risk.critical ∉ l → Risk.highRisk ∉ l →
        (Risk.atRisk ∈ l ∨ Risk.elevated ∈ l) →
        determine_overall_statusL l = .atRisk) ∧
      ((∀ r ∈ l, r = Risk.normal) → determine_overall_statusL l = .normal) ∧
      (Risk.critical ∉ l → Risk.highRisk ∉ l → Risk.atRisk ∉ l →
        Risk.elevated ∉ l → Risk.noData ∈ l →
        determine_overall_statusL l = .incompleteData)) ∧
    determine_overall_status .normal .normal .noData .normal =
      .incompleteData := by
  refine ⟨?_, ?_, by decide⟩
  · intro l₁ l₂ h
    unfold determine_overall_statusL
    simp only [h.mem_iff]
  · intro l
    refine ⟨?_, ?_, ?_, ?_, ?_⟩
    · intro h
      unfold determine_overall_statusL
      rw [if_pos h]
    · intro h1 h2
      unfold determine_overall_statusL
      rw [if_neg h1, if_pos h2]
    · intro h1 h2 h3
      unfold determine_overall_statusL
      rw [if_neg h1, if_neg h2, if_pos h3]
    · intro h
      have h1 : Risk.critical ∉ l := fun hc => by cases h _ hc
      have h2 : Risk.highRisk ∉ l := fun hc => by cases h _ hc
      have h3 : ¬(Risk.atRisk ∈ l ∨ Risk.elevated ∈ l) := by
        rintro (hc | hc) <;> cases h _ hc
      unfold determine_overall_statusL
      rw [if_neg h1, if_neg h2, if_neg h3, if_pos h]
    · intro h1 h2 h3 h4 h5
      have h3' : ¬(Risk.atRisk ∈ l ∨ Risk.elevated ∈ l) := by
        rintro (hc | hc) <;> [exact h3 hc; exact h4 hc]
      have hn : ¬∀ r ∈ l, r = Risk.normal := fun h => by cases h _ h5
      unfold determine_overall_statusL
      rw [if_neg h1, if_neg h2, if_neg h3', if_neg hn, if_pos h5]

/-- Witness for C8: permutation invariance applied to a concrete
reordering, and the precedence rules applied to a concrete list, via the
theorem itself. -/
theorem c8_witness :
    determine_overall_statusL [.noData, .normal] =
      determine_overall_statusL [.normal, .noData] ∧
    determine_overall_statusL [.normal, .elevated, .noData] = .atRisk := by
  constructor
  · exact c8_overall_perm_invariant_and_precedence.1 _ _
      (List.Perm.swap Risk.normal Risk.noData [])
  · exact (c8_overall_perm_invariant_and_precedence.2.1
      [.normal, .elevated, .noData]).2.2.1 (by decide) (by decide)
      (Or.inr (by decide))

lemma mapM_eq_error {α β : Type} (f : α → Except Unit β) (l : List α)
    (h : ∃ a ∈ l, f a = .error ()) : l.mapM f = .error () := by
  induction l with
  | nil => simp at h
  | cons x xs ih =>
    obtain ⟨a, ha, hfa⟩ := h
    rw [List.mapM_cons]
    rcases List.mem_cons.mp ha with h' | h'
    · subst h'
      rw [hfa]
      rfl
    · cases hfx : f x with
      | error e =>
        cases e
        rfl
      | ok y =>
        rw [ih ⟨a, h', hfa⟩]
        rfl

/-- Counterexample to C3: a malformed (non-numeric) heart-rate cell does
not classify to an `Error` label — `assess_hr_risk` raises (no
`try/except`), and the raise aborts the whole batch, including the
well-formed first row. -/
theorem c3_counterexample :
    assess_hr_risk (.text "N/A") = .error () ∧
    assess_health_risks
      [ofNums (some 120) (some 80) (some 70) (some 98) (some 100) none,
       ⟨.num 120, .num 80, .text "N/A", .num 98, .num 100, none⟩] =
      .error () := by
  decide

/-- C3 amended: only the blood-pressure classifier handles a malformed
value defensively, returning the `Error` label without raising; a
malformed heart-rate, oxygen or glucose value raises `TypeError`, and a
malformed heart-rate cell in any row aborts classification of the whole
batch. -/
theorem c3_amended_only_bp_defensive :
    ∀ (s : String) (q : ℚ),
      assess_bp_risk (.text s) (.num q) = Risk.error ∧
      assess_hr_risk (.text s) = .error () ∧
      assess_o2_risk (.text s) = .error () ∧
      assess_diabetes_risk (.text s) none = .error () ∧
      (∀ rows : List PatientReading,
        (∃ r ∈ rows, r.heart_rate = .text s) →
        assess_health_risks rows = .error ()) := by
  intro s q
  refine ⟨rfl, rfl, rfl, rfl, ?_⟩
  intro rows ⟨r, hr, hhr⟩
  have h : rows.mapM (fun r => assess_hr_risk r.heart_rate) = .error () :=
    mapM_eq_error _ _ ⟨r, hr, by rw [hhr]; rfl⟩
  simp only [assess_health_risks]
  rw [h]
  rfl

/-- Witness for C3's amended theorem at a concrete malformed batch. -/
theorem c3_amended_witness :
    assess_bp_risk (.text "n/a") (.num 70) = Risk.error ∧
    assess_health_risks
      [⟨.num 120, .num 80, .text "n/a", .num 98, .num 100, none⟩] =
      .error () := by
  have h := c3_amended_only_bp_defensive "n/a" 70
  exact ⟨h.1, h.2.2.2.2 _
    ⟨⟨.num 120, .num 80, .text "n/a", .num 98, .num 100, none⟩,
      List.mem_singleton.mpr rfl, rfl⟩⟩

lemma diab_num_numCell (gq aq : ℚ) :
    assess_diabetes_risk (.num gq) (some (.num aq)) =
      .ok (spec_worst (spec_a1c_sub aq) (spec_glucose_sub gq)) := by
  unfold assess_diabetes_risk spec_worst spec_a1c_sub spec_glucose_sub
  by_cases h8 : 8 < aq <;> by_cases h7 : 7 < aq <;>
    by_cases h200 : 200 < gq <;> by_cases h140 : 140 < gq <;>
      simp [Value.isna, Value.gt, h8, h7, h200, h140, Bind.bind,
        Except.bind, pure, Except.pure]

lemma diab_num_noCol (gq : ℚ) :
    assess_diabetes_risk (.num gq) none =
      .ok (spec_worst .normal (spec_glucose_sub gq)) := by
  unfold assess_diabetes_risk spec_worst spec_glucose_sub
  by_cases h200 : 200 < gq <;> by_cases h140 : 140 < gq <;>
    simp [Value.isna, Value.gt, h200, h140, Bind.bind,
      Except.bind, pure, Except.pure]

lemma diab_num_nullCell (gq : ℚ) :
    assess_diabetes_risk (.num gq) (some .null) =
      .ok (spec_worst .normal (spec_glucose_sub gq)) := by
  unfold assess_diabetes_risk spec_worst spec_glucose_sub
  by_cases h200 : 200 < gq <;> by_cases h140 : 140 < gq <;>
    simp [Value.isna, Value.gt, h200, h140, Bind.bind,
      Except.bind, pure, Except.pure]

lemma diab_null_numCell (aq : ℚ) :
    assess_diabetes_risk .null (some (.num aq)) =
      .ok (spec_worst (spec_a1c_sub aq) .normal) := by
  unfold assess_diabetes_risk spec_worst spec_a1c_sub
  by_cases h8 : 8 < aq <;> by_cases h7 : 7 < aq <;>
    simp [Value.isna, Value.gt, h8, h7, Bind.bind,
      Except.bind, pure, Except.pure]

/-- C7: with at least one of the two signals present, the diabetes label
is the worst of the present sub-risks (A1C: above 8 high, above 7 at
risk; glucose: above 200 high, above 140 at risk; worst under High Risk
> At Risk > Normal, an absent signal contributing the neutral `Normal`).
This holds for both representations of an absent A1C — column present
with a null cell, and column absent entirely. The claim's three named
instances are included. -/
theorem c7_diabetes_worst_of_present_subrisks :
    (∀ (g a : Option ℚ), g.isSome ∨ a.isSome →
      assess_diabetes_risk (toValue g) (some (toValue a)) =
        .ok (spec_diabetes_label g a) ∧
      assess_diabetes_risk (toValue g) (a.map Value.num) =
        .ok (spec_diabetes_label g a)) ∧
    assess_diabetes_risk (.num 150) none = .ok .atRisk ∧
    assess_diabetes_risk .null (some (.num (15/2))) = .ok .atRisk ∧
    assess_diabetes_risk (.num 210) (some (.num (15/2))) = .ok .highRisk := by
  refine ⟨?_, ?_, ?_, ?_⟩
  case refine_2 =>
    rw [diab_num_noCol]
    norm_num [spec_glucose_sub, spec_worst]
    decide
  case refine_3 =>
    rw [diab_null_numCell]
    norm_num [spec_a1c_sub, spec_worst]
    decide
  case refine_4 =>
    rw [diab_num_numCell]
    norm_num [spec_a1c_sub, spec_glucose_sub, spec_worst]
  intro g a h
  cases g with
  | none =>
    cases a with
    | none => simp at h
    | some aq =>
      exact ⟨diab_null_numCell aq, diab_null_numCell aq⟩
  | some gq =>
    cases a with
    | none => exact ⟨diab_num_nullCell gq, diab_num_noCol gq⟩
    | some aq => exact ⟨diab_num_numCell gq aq, diab_num_numCell gq aq⟩

/-- Witness for C7: the worst-of rule applied via the theorem at glucose
150 with A1C absent, evaluating to `At Risk`. -/
theorem c7_witness :
    assess_diabetes_risk (toValue (some 150)) (some (toValue none)) =
      .ok (spec_diabetes_label (some 150) none) ∧
    spec_diabetes_label (some 150) none = .atRisk := by
  refine ⟨(c7_diabetes_worst_of_present_subrisks.1 (some 150) none
    (Or.inl rfl)).1, by decide⟩

lemma spec_worst_ne_critical (r₁ r₂ : Risk) : spec_worst r₁ r₂ ≠ .critical := by
  revert r₁ r₂
  decide

lemma assess_hr_risk_toValue (o : Option ℚ) :
    assess_hr_risk (toValue o) =
      .ok (match o with
        | none => .noData
        | some q =>
          if 120 < q then .highRisk else if q < 60 then .lowRisk
          else .normal) := by
  cases o with
  | none => rfl
  | some q => rw [toValue, assess_hr_risk_num]

lemma assess_o2_risk_toValue (o : Option ℚ) :
    assess_o2_risk (toValue o) =
      .ok (match o with
        | none => .noData
        | some q =>
          if q < 90 then .critical else if q < 95 then .atRisk
          else .normal) := by
  cases o with
  | none => rfl
  | some q => rw [toValue, assess_o2_risk_num]

lemma assess_diabetes_risk_ofNums (g : Option ℚ) (a : Option (Option ℚ)) :
    assess_diabetes_risk (toValue g) (a.map toValue) =
      .ok (match g, a with
        | none, none => .normal
        | none, some none => .noData
        | none, some (some aq) => spec_worst (spec_a1c_sub aq) .normal
        | some gq, none => spec_worst .normal (spec_glucose_sub gq)
        | some gq, some none => spec_worst .normal (spec_glucose_sub gq)
        | some gq, some (some aq) =>
          spec_worst (spec_a1c_sub aq) (spec_glucose_sub gq)) := by
  cases g with
  | none =>
    rcases a with _ | _ | aq
    · rfl
    · rfl
    · exact diab_null_numCell aq
  | some gq =>
    rcases a with _ | _ | aq
    · exact diab_num_noCol gq
    · exact diab_num_nullCell gq
    · exact diab_num_numCell gq aq

lemma classifyReading_ofNums (sys dia hr o2 glu : Option ℚ)
    (a1c : Option (Option ℚ)) :
    ∃ hrL o2L dL : Risk,
      assess_hr_risk (toValue hr) = .ok hrL ∧
      assess_o2_risk (toValue o2) = .ok o2L ∧
      assess_diabetes_risk (toValue glu) (a1c.map toValue) = .ok dL ∧
      classifyReading (ofNums sys dia hr o2 glu a1c) =
        .ok ⟨assess_bp_risk (toValue sys) (toValue dia), hrL, o2L, dL,
          determine_overall_status
            (assess_bp_risk (toValue sys) (toValue dia)) hrL o2L dL⟩ := by
  refine ⟨_, _, _, assess_hr_risk_toValue hr, assess_o2_risk_toValue o2,
    assess_diabetes_risk_ofNums glu a1c, ?_⟩
  unfold classifyReading ofNums
  rw [assess_hr_risk_toValue, assess_o2_risk_toValue,
    assess_diabetes_risk_ofNums]
  rfl

lemma bp_null_left (v : Value) : assess_bp_risk .null v = .noData := rfl

lemma bp_null_right (v : Value) : assess_bp_risk v .null = .noData := by
  cases v <;> rfl

lemma assess_bp_risk_toValue_ne_critical (s d : Option ℚ) :
    assess_bp_risk (toValue s) (toValue d) ≠ .critical := by
  cases s with
  | none => rw [toValue, bp_null_left]; simp
  | some a =>
    cases d with
    | none => rw [toValue, bp_null_right]; simp
    | some b =>
      rw [toValue, toValue, assess_bp_risk_num_num]
      split_ifs <;> simp


lemma hr_toValue_ne_critical (o : Option ℚ) (r : Risk)
    (h : assess_hr_risk (toValue o) = .ok r) : r ≠ .critical := by
  cases o with
  | none =>
    rw [show assess_hr_risk (toValue none) = Except.ok Risk.noData from rfl]
      at h
    injection h with h3
    rw [← h3]
    simp
  | some q =>
    rw [toValue, assess_hr_risk_num] at h
    injection h with h3
    rw [← h3]
    split_ifs <;> simp

lemma dia_ofNums_ne_critical (g : Option ℚ) (a : Option (Option ℚ)) (r : Risk)
    (h : assess_diabetes_risk (toValue g) (a.map toValue) = .ok r) :
    r ≠ .critical := by
  cases g with
  | none =>
    rcases a with _ | _ | aq
    · rw [show assess_diabetes_risk (toValue none)
          ((none : Option (Option ℚ)).map toValue) = Except.ok Risk.normal
        from rfl] at h
      injection h with h3
      rw [← h3]
      simp
    · rw [show assess_diabetes_risk (toValue none)
          ((some (none : Option ℚ)).map toValue) = Except.ok Risk.noData
        from rfl] at h
      injection h with h3
      rw [← h3]
      simp
    · rw [show ((some (some aq) : Option (Option ℚ)).map toValue) =
          some (Value.num aq) from rfl, toValue, diab_null_numCell] at h
      injection h with h3
      rw [← h3]
      exact spec_worst_ne_critical _ _
  | some gq =>
    rcases a with _ | _ | aq
    · rw [show ((none : Option (Option ℚ)).map toValue) =
          (none : Option Value) from rfl, toValue, diab_num_noCol] at h
      injection h with h3
      rw [← h3]
      exact spec_worst_ne_critical _ _
    · rw [show ((some (none : Option ℚ)).map toValue) =
          some Value.null from rfl, toValue, diab_num_nullCell] at h
      injection h with h3
      rw [← h3]
      exact spec_worst_ne_critical _ _
    · rw [show ((some (some aq) : Option (Option ℚ)).map toValue) =
          some (Value.num aq) from rfl, toValue, diab_num_numCell] at h
      injection h with h3
      rw [← h3]
      exact spec_worst_ne_critical _ _

lemma o2_toValue_critical_iff (o : Option ℚ) (r : Risk)
    (h : assess_o2_risk (toValue o) = .ok r) :
    (r = .critical ↔ ∃ q, o = some q ∧ q < 90) := by
  cases o with
  | none =>
    rw [show assess_o2_risk (toValue none) = Except.ok Risk.noData from rfl]
      at h
    injection h with h3
    rw [← h3]
    simp
  | some q =>
    rw [toValue, assess_o2_risk_num] at h
    injection h with h3
    rw [← h3]
    by_cases h90 : q < 90
    · simp [h90]
    · by_cases h95 : q < 95 <;> simp [h90, h95]

/-- C10: through the full classification of a store-shaped reading
(each vital numeric or null), the aggregate status is `Critical` exactly
when the oxygen saturation is present and below 90 — the oxygen rule is
the only source of the `Critical` label, so no blood-pressure,
heart-rate or glucose values alone ever make the aggregate Critical. -/
theorem c10_critical_iff_low_oxygen :
    ∀ (sys dia hr o2 glu : Option ℚ) (a1c : Option (Option ℚ)),
      (classifyReading (ofNums sys dia hr o2 glu a1c)).map
        ClassifiedReading.health_status = .ok .critical ↔
      ∃ q, o2 = some q ∧ q < 90 := by
  intro sys dia hr o2 glu a1c
  obtain ⟨hrL, o2L, dL, hhr, ho2, hd, hcl⟩ :=
    classifyReading_ofNums sys dia hr o2 glu a1c
  rw [hcl]
  have hbpne := assess_bp_risk_toValue_ne_critical sys dia
  have hhrne := hr_toValue_ne_critical hr hrL hhr
  have hdne := dia_ofNums_ne_critical glu a1c dL hd
  have ho2crit := o2_toValue_critical_iff o2 o2L ho2
  have hdet : ∀ b h o d : Risk,
      (determine_overall_status b h o d = .critical ↔
        Risk.critical ∈ [b, h, o, d]) := by decide
  rw [show (Except.ok
      (⟨assess_bp_risk (toValue sys) (toValue dia), hrL, o2L, dL,
        determine_overall_status (assess_bp_risk (toValue sys) (toValue dia))
          hrL o2L dL⟩ : ClassifiedReading)).map ClassifiedReading.health_status =
      Except.ok (determine_overall_status
        (assess_bp_risk (toValue sys) (toValue dia)) hrL o2L dL) from rfl]
  constructor
  · intro h
    have h' := (hdet _ _ _ _).mp (by injection h)
    simp only [List.mem_cons, List.not_mem_nil, or_false] at h'
    rcases h' with h' | h' | h' | h'
    · exact absurd h'.symm hbpne
    · exact absurd h'.symm hhrne
    · exact ho2crit.mp h'.symm
    · exact absurd h'.symm hdne
  · intro h
    have h' : Risk.critical ∈ [assess_bp_risk (toValue sys) (toValue dia),
        hrL, o2L, dL] := by
      simp only [List.mem_cons]
      exact Or.inr (Or.inr (Or.inl (ho2crit.mpr h).symm))
    rw [(hdet _ _ _ _).mpr h']

/-- C4: the empty collection evaluated against the code. Classification
of an empty frame returns an empty result without raising, and an empty
fetch stops the pipeline before the metrics; but applied to an empty
(e.g. fully filtered-out) collection, every unguarded percentage-style
metric of the overview — BP, heart-rate, oxygen, diabetes and
incomplete-data — performs a division by zero (`ZeroDivisionError`)
instead of reporting a defined 0%; only the critical percentage carries
the `total_patients > 0` guard and yields 0. -/
theorem c4_empty_collection_percentages :
    assess_health_risks [] = .ok [] ∧
    mainPipeline [] = none ∧
    bp_high_risk_pct [] = .error () ∧
    hr_high_risk_pct [] = .error () ∧
    o2_abnormal_pct [] = .error () ∧
    diabetes_high_risk_pct [] = .error () ∧
    incomplete_data_pct [] = .error () ∧
    critical_percentage [] = 0 := by
  refine ⟨rfl, rfl, rfl, rfl, rfl, rfl, rfl, rfl⟩

lemma foldl_pick_mem (xs : List CandRow) : ∀ x : CandRow,
    xs.foldl (fun acc r => if sortRank r ≤ sortRank acc then acc else r) x ∈
      x :: xs := by
  induction xs with
  | nil => intro x; exact List.mem_singleton.mpr rfl
  | cons y ys ih =>
    intro x
    rw [List.foldl_cons]
    by_cases h : sortRank y ≤ sortRank x
    · rw [if_pos h]
      have h2 := ih x
      simp only [List.mem_cons] at h2 ⊢
      tauto
    · rw [if_neg h]
      have h2 := ih y
      simp only [List.mem_cons] at h2 ⊢
      tauto

lemma foldl_pick_max (xs : List CandRow) : ∀ x c : CandRow, c ∈ x :: xs →
    sortRank c ≤ sortRank (xs.foldl
      (fun acc r => if sortRank r ≤ sortRank acc then acc else r) x) := by
  induction xs with
  | nil =>
    intro x c hc
    rw [List.mem_singleton] at hc
    subst hc
    exact le_refl _
  | cons y ys ih =>
    intro x c hc
    rw [List.foldl_cons]
    by_cases h : sortRank y ≤ sortRank x
    · rw [if_pos h]
      rcases List.mem_cons.mp hc with hcx | hc'
      · rw [hcx]
        exact ih x x (List.mem_cons_self _ _)
      · rcases List.mem_cons.mp hc' with hcy | hc''
        · rw [hcy]
          exact le_trans h (ih x x (List.mem_cons_self _ _))
        · exact ih x c (List.mem_cons.mpr (Or.inr hc''))
    · rw [if_neg h]
      have hxy : sortRank x ≤ sortRank y := le_of_lt (lt_of_not_le h)
      rcases List.mem_cons.mp hc with hcx | hc'
      · rw [hcx]
        exact le_trans hxy (ih y y (List.mem_cons_self _ _))
      · rcases List.mem_cons.mp hc' with hcy | hc''
        · rw [hcy]
          exact ih y y (List.mem_cons_self _ _)
        · exact ih y c (List.mem_cons.mpr (Or.inr hc''))

lemma exists_mem_leftJoinRows {α : Type} (xs : List α) :
    ∃ y, y ∈ leftJoinRows xs := by
  cases xs with
  | nil => exact ⟨none, by simp [leftJoinRows]⟩
  | cons a as => exact ⟨some a, by simp [leftJoinRows]⟩

lemma candidates_ne_nil (db : Database) (pid : ℕ) (d : ℤ) :
    candidates db pid d ≠ [] := by
  obtain ⟨b, hb⟩ := exists_mem_leftJoinRows
    (db.bloodPressure.filter (fun r => r.patient_id = pid ∧ r.record_date = d))
  obtain ⟨h, hh⟩ := exists_mem_leftJoinRows
    (db.heartRate.filter
      (fun r => r.patient_id = pid ∧ dateOf r.record_timestamp = d))
  obtain ⟨o, ho⟩ := exists_mem_leftJoinRows
    (db.oxygen.filter
      (fun r => r.patient_id = pid ∧ dateOf r.record_timestamp = d))
  obtain ⟨g, hg⟩ := exists_mem_leftJoinRows
    (db.diabetes.filter (fun r => r.patient_id = pid ∧ r.record_date = d))
  intro hnil
  have hm : (⟨b, h, o, g⟩ : CandRow) ∈ candidates db pid d := by
    unfold candidates
    simp only [List.mem_flatMap, List.mem_map]
    exact ⟨b, hb, h, hh, o, ho, g, hg, rfl⟩
  rw [hnil] at hm
  exact List.not_mem_nil _ hm

/-- C9: `fetch_patient_data_by_date` returns exactly one row per patient
in the `Patients` table — in particular no duplicate patient rows when
patient ids are unique — and the returned row is one of that patient's
same-day candidate rows of the join, maximal among them under the
query's ordering (blood-pressure record date descending, then heart-rate
timestamp, then oxygen timestamp, then glucose record date, NULLs first
as Postgres orders `DESC`); ties in all four keys are resolved by the
stable position of the row within the partition. -/
theorem c9_fetch_one_row_per_patient_max_recent :
    ∀ (db : Database) (d : ℤ),
      (fetch_patient_data_by_date db d).map Prod.fst = db.patients ∧
      (db.patients.Nodup →
        ((fetch_patient_data_by_date db d).map Prod.fst).Nodup) ∧
      (∀ p row, (p, row) ∈ fetch_patient_data_by_date db d →
        row ∈ candidates db p d ∧
        ∀ c ∈ candidates db p d, sortRank c ≤ sortRank row) := by
  intro db d
  have hmap : (fetch_patient_data_by_date db d).map Prod.fst = db.patients := by
    unfold fetch_patient_data_by_date
    rw [List.map_map,
      show (Prod.fst ∘ fun pid =>
          (pid, rowNumberOne (candidates db pid d))) = id from rfl,
      List.map_id]
  refine ⟨hmap, fun hn => hmap ▸ hn, ?_⟩
  intro p row hmem
  unfold fetch_patient_data_by_date at hmem
  rw [List.mem_map] at hmem
  obtain ⟨pid, hpid, heq⟩ := hmem
  simp only [Prod.mk.injEq] at heq
  obtain ⟨rfl, hrow⟩ := heq
  subst hrow
  cases hc : candidates db pid d with
  | nil => exact absurd hc (candidates_ne_nil db pid d)
  | cons x xs =>
    constructor
    · exact foldl_pick_mem xs x
    · intro c hcmem
      exact foldl_pick_max xs x c hcmem

/-- Witness for C9 on a concrete store: two patients, patient 1 with one
same-day blood-pressure row and two same-day heart-rate rows; the fetch
has unique patient rows and patient 1's selected row is the candidate
carrying the later heart-rate timestamp, maximal among both candidates. -/
theorem c9_witness :
    ((fetch_patient_data_by_date
      ⟨[1, 2], [⟨1, 0, .num 120, .num 80⟩],
        [⟨1, 100, .num 70⟩, ⟨1, 200, .num 75⟩],
        [⟨2, 50, .num 99⟩], []⟩ 0).map Prod.fst).Nodup ∧
    (⟨some ⟨1, 0, .num 120, .num 80⟩, some ⟨1, 200, .num 75⟩, none, none⟩ :
        CandRow) ∈
      candidates ⟨[1, 2], [⟨1, 0, .num 120, .num 80⟩],
        [⟨1, 100, .num 70⟩, ⟨1, 200, .num 75⟩],
        [⟨2, 50, .num 99⟩], []⟩ 1 0 ∧
    ∀ c ∈ candidates ⟨[1, 2], [⟨1, 0, .num 120, .num 80⟩],
        [⟨1, 100, .num 70⟩, ⟨1, 200, .num 75⟩],
        [⟨2, 50, .num 99⟩], []⟩ 1 0,
      sortRank c ≤ sortRank
        (⟨some ⟨1, 0, .num 120, .num 80⟩, some ⟨1, 200, .num 75⟩, none,
          none⟩ : CandRow) := by
  have h1 := (c9_fetch_one_row_per_patient_max_recent
    ⟨[1, 2], [⟨1, 0, .num 120, .num 80⟩],
      [⟨1, 100, .num 70⟩, ⟨1, 200, .num 75⟩],
      [⟨2, 50, .num 99⟩], []⟩ 0).2.1 (by decide)
  have h2 := (c9_fetch_one_row_per_patient_max_recent
    ⟨[1, 2], [⟨1, 0, .num 120, .num 80⟩],
      [⟨1, 100, .num 70⟩, ⟨1, 200, .num 75⟩],
      [⟨2, 50, .num 99⟩], []⟩ 0).2.2 1
    ⟨some ⟨1, 0, .num 120, .num 80⟩, some ⟨1, 200, .num 75⟩, none, none⟩
    (by decide)
  exact ⟨h1, h2.1, h2.2⟩
